import Mathlib

/-!
# Verification of `loadFixture` / `clearSnapshots`
(`packages/hardhat-network-helpers/src/loadFixture.ts`)

Shallow embedding of the fixture-snapshot cache.  The module keeps a
mutable list `snapshots` of records `{restorer, fixture, args, data}`;
`loadFixture` computes a cache key `JSON.stringify([fixture.name, args])`,
looks for a record with a matching key, and either restores that record's
snapshot (pruning records with larger snapshot ids) or runs the fixture,
takes a fresh snapshot and appends a record.

External effects are threaded explicitly:
* the mutable module state `snapshots` is passed in and returned;
* the outcome of `restorer.restore()` and the id handed out by
  `takeSnapshot()` are inputs (an `Oracle`), since both belong to the
  external network collaborator;
* a fixture is its `name` together with its behaviour on an argument
  list (it may also fail);
* JavaScript values that can appear in argument lists are modelled by
  `JsVal`, including functions (which `JSON.stringify` silently turns
  into `null` inside arrays) and circular structures (on which
  `JSON.stringify` throws a `TypeError`).
-/

/-- Errors that can surface from `loadFixture`: the two error classes of
`./errors` used here, the collaborator's `InvalidSnapshotError`, the
`TypeError` thrown by `JSON.stringify` on circular structures, and a
catch-all for other exceptions. -/
inductive JsError where
  | fixtureAnonymousFunctionError : JsError
  | invalidSnapshotError : JsError
  | fixtureSnapshotError : JsError → JsError
  | typeError : String → JsError
  | other : String → JsError
deriving Repr, DecidableEq

/-- JavaScript values usable as fixture arguments / results.  `func` is a
function value (identified by a token); `circular` stands for any value
containing a reference cycle, which `JSON.stringify` rejects. -/
inductive JsVal where
  | null : JsVal
  | undefined : JsVal
  | bool : Bool → JsVal
  | num : Int → JsVal
  | str : String → JsVal
  | func : Nat → JsVal
  | arr : List JsVal → JsVal
  | circular : JsVal
deriving Repr

/-- The `TypeError` raised by `JSON.stringify` on a circular structure. -/
def circErr : JsError :=
  JsError.typeError "Converting circular structure to JSON"

/-- JSON string escaping for one character (quote and backslash). -/
def jsonEscapeChar (c : Char) : String :=
  if c = '\\' then "\\\\" else if c = '"' then "\\\"" else String.singleton c

/-- JSON string escaping, as performed by `JSON.stringify` on strings. -/
def jsonEscape (s : String) : String :=
  String.join (s.toList.map jsonEscapeChar)

mutual

/-- `JSON.stringify` of one value in array-element position: `undefined`
and functions serialize to `null`; circular structures throw. -/
def stringifyVal : JsVal → Except JsError String
  | JsVal.null => Except.ok "null"
  | JsVal.undefined => Except.ok "null"
  | JsVal.func _ => Except.ok "null"
  | JsVal.bool true => Except.ok "true"
  | JsVal.bool false => Except.ok "false"
  | JsVal.num n => Except.ok (toString n)
  | JsVal.str s => Except.ok ("\"" ++ jsonEscape s ++ "\"")
  | JsVal.arr xs =>
    match stringifyElems xs with
    | Except.error e => Except.error e
    | Except.ok parts => Except.ok ("[" ++ String.intercalate "," parts ++ "]")
  | JsVal.circular => Except.error circErr

/-- `JSON.stringify` of the elements of an array, left to right, first
error wins (as JS serialization traverses in order). -/
def stringifyElems : List JsVal → Except JsError (List String)
  | [] => Except.ok []
  | x :: xs =>
    match stringifyVal x with
    | Except.error e => Except.error e
    | Except.ok sx =>
      match stringifyElems xs with
      | Except.error e => Except.error e
      | Except.ok rest => Except.ok (sx :: rest)

end

mutual

/-- Whether a value contains a circular structure anywhere inside. -/
def hasCircular : JsVal → Bool
  | JsVal.arr xs => anyCircular xs
  | JsVal.circular => true
  | _ => false

/-- Whether some element of a list contains a circular structure. -/
def anyCircular : List JsVal → Bool
  | [] => false
  | x :: xs => hasCircular x || anyCircular xs

end

/-- `JSON.stringify([fixture.name, args])`, the cache key of line 42. -/
def stringifyKey (name : String) (args : List JsVal) : Except JsError String :=
  stringifyVal (JsVal.arr [JsVal.str name, JsVal.arr args])

/-- The external restorer handle: `{ snapshotId, restore() }`.  Only the
numeric value of the id is observed by this module
(`Number(s.restorer.snapshotId)`), so we carry that number. -/
structure SnapshotRestorer where
  snapshotId : Nat
deriving Repr, DecidableEq

/-- A fixture: a (possibly empty) `name` and its behaviour when invoked
on an argument list.  The behaviour may fail, modelling a rejected
promise. -/
structure Fixture where
  name : String
  run : List JsVal → Except JsError JsVal

/-- One entry of the module-level `snapshots` array:
`{ restorer, fixture, args, data }`. -/
structure SnapshotRec where
  restorer : SnapshotRestorer
  fixture : Fixture
  args : List JsVal
  data : JsVal

/-- `JSON.stringify([s.fixture.name, s.args])`, recomputed for each
stored record inside the `find` predicate of lines 43-45. -/
def recKey (s : SnapshotRec) : Except JsError String :=
  stringifyKey s.fixture.name s.args

/-- `snapshots.find((s) => JSON.stringify([s.fixture.name, s.args]) === cacheKey)`:
first matching record; an exception raised while serializing a stored
record's args propagates. -/
def findMatch (key : String) : List SnapshotRec → Except JsError (Option SnapshotRec)
  | [] => Except.ok none
  | s :: rest =>
    match recKey s with
    | Except.error e => Except.error e
    | Except.ok k => if k = key then Except.ok (some s) else findMatch key rest

/-- What `snapshot.restorer.restore()` does when called: succeed, or
throw some error. -/
inductive RestoreOutcome where
  | ok : RestoreOutcome
  | err : JsError → RestoreOutcome
deriving Repr, DecidableEq

/-- The external collaborator's behaviour during one `loadFixture` call:
the outcome of `restore()` if the hit path calls it, and the
`snapshotId` of the restorer returned by `takeSnapshot()` if the miss
path calls it. -/
structure Oracle where
  restoreResult : RestoreOutcome
  freshId : Nat
deriving Repr, DecidableEq

/-- Result of one `loadFixture` call: the value returned or error
thrown, the new contents of the module-level `snapshots` list, and
whether the fixture function was invoked during the call. -/
structure LoadResult where
  outcome : Except JsError JsVal
  cache : List SnapshotRec
  executed : Bool

/-- `loadFixture(fixture, args)` over explicit state and oracle.

Source, lines 35-78:
* line 38: `if (fixture.name === "") throw new FixtureAnonymousFunctionError()`;
* line 42: `cacheKey = JSON.stringify([fixture.name, args])` (a thrown
  `TypeError` propagates, before the fixture could run);
* lines 43-45: `snapshots.find(...)` on the serialized key;
* hit path (lines 49-64): `await snapshot.restorer.restore()`, then
  `snapshots = snapshots.filter((s) => Number(s.restorer.snapshotId) <=
  Number(snapshot.restorer.snapshotId))`; a restore error that is an
  `InvalidSnapshotError` is rethrown as `FixtureSnapshotError(e)`, any
  other error is rethrown unchanged, and in either error case the
  filter assignment was not reached; finally `return snapshot.data`;
* miss path (lines 65-77): run the fixture (`args.length > 0 ?
  await fixture(...args) : await fixture()`, i.e. the call with `args`),
  `takeSnapshot()`, push `{restorer, fixture, args, data}`, return
  `data`. -/
def loadFixture (fixture : Fixture) (args : List JsVal)
    (snapshots : List SnapshotRec) (oracle : Oracle) : LoadResult :=
  if fixture.name = "" then
    ⟨Except.error JsError.fixtureAnonymousFunctionError, snapshots, false⟩
  else
    match stringifyKey fixture.name args with
    | Except.error e => ⟨Except.error e, snapshots, false⟩
    | Except.ok cacheKey =>
      match findMatch cacheKey snapshots with
      | Except.error e => ⟨Except.error e, snapshots, false⟩
      | Except.ok (some snapshot) =>
        match oracle.restoreResult with
        | RestoreOutcome.ok =>
          ⟨Except.ok snapshot.data,
           snapshots.filter
             (fun s => s.restorer.snapshotId ≤ snapshot.restorer.snapshotId),
           false⟩
        | RestoreOutcome.err e =>
          match e with
          | JsError.invalidSnapshotError =>
            ⟨Except.error (JsError.fixtureSnapshotError JsError.invalidSnapshotError),
             snapshots, false⟩
          | _ => ⟨Except.error e, snapshots, false⟩
      | Except.ok none =>
        match fixture.run args with
        | Except.error e => ⟨Except.error e, snapshots, true⟩
        | Except.ok data =>
          ⟨Except.ok data,
           snapshots ++ [⟨⟨oracle.freshId⟩, fixture, args, data⟩],
           true⟩

/-- `clearSnapshots()`: `snapshots = []`. -/
def clearSnapshots : List SnapshotRec := []

/-- Cache-key uniqueness: no two records of the list serialize to the
same `(fixture name, args)` key (the spec's per-key-at-most-one-record
invariant). -/
def KeysUnique (c : List SnapshotRec) : Prop :=
  List.Pairwise (fun a b => recKey a ≠ recKey b) c

/-! ### Concrete example values used in witnesses and counterexamples -/

/-- A named fixture returning 1. -/
def fixA : Fixture := ⟨"a", fun _ => Except.ok (JsVal.num 1)⟩

/-- A named fixture returning 2. -/
def fixB : Fixture := ⟨"b", fun _ => Except.ok (JsVal.num 2)⟩

/-- A cached record for `fixA` with snapshot id 1. -/
def recA : SnapshotRec := ⟨⟨1⟩, fixA, [], JsVal.num 1⟩

/-- A cached record for `fixB` with snapshot id 2. -/
def recB : SnapshotRec := ⟨⟨2⟩, fixB, [], JsVal.num 2⟩

/-- A named fixture standing for `deploy`. -/
def deployFix : Fixture := ⟨"deploy", fun _ => Except.ok (JsVal.num 1)⟩

/-- A record cached for `deploy` called with a function-valued argument
(`JSON.stringify` rendered that argument as `null`). -/
def funcArgRec : SnapshotRec := ⟨⟨5⟩, deployFix, [JsVal.func 99], JsVal.num 42⟩

/-- A record cached for `deploy` called with argument list `[100]`. -/
def deployHundredRec : SnapshotRec := ⟨⟨3⟩, deployFix, [JsVal.num 100], JsVal.num 7⟩

/-! ## Helper lemmas -/

theorem findMatch_mem {key : String} {c : List SnapshotRec} {s : SnapshotRec}
    (h : findMatch key c = Except.ok (some s)) : s ∈ c := by
  induction c with
  | nil => simp [findMatch] at h
  | cons x rest ih =>
    rw [findMatch] at h
    split at h
    · simp at h
    · split at h
      · simp at h
        simp [h]
      · exact List.mem_cons_of_mem x (ih h)

theorem findMatch_key {key : String} {c : List SnapshotRec} {s : SnapshotRec}
    (h : findMatch key c = Except.ok (some s)) : recKey s = Except.ok key := by
  induction c with
  | nil => simp [findMatch] at h
  | cons x rest ih =>
    rw [findMatch] at h
    split at h
    · simp at h
    · rename_i k hk
      split at h
      · rename_i hkey
        simp at h
        rw [← h, hk, hkey]
      · exact ih h

theorem findMatch_none {key : String} {c : List SnapshotRec}
    (h : findMatch key c = Except.ok none) :
    ∀ s ∈ c, ∃ ks, recKey s = Except.ok ks ∧ ks ≠ key := by
  induction c with
  | nil => intro s hs; simp at hs
  | cons x rest ih =>
    rw [findMatch] at h
    split at h
    · simp at h
    · rename_i k hk
      split at h
      · simp at h
      · rename_i hkey
        intro s hs
        rcases List.mem_cons.mp hs with hxs | hrest
        · exact ⟨k, by rw [hxs, hk], hkey⟩
        · exact ih h s hrest

theorem findMatch_none_of {key : String} {c : List SnapshotRec}
    (h : ∀ s ∈ c, ∃ ks, recKey s = Except.ok ks ∧ ks ≠ key) :
    findMatch key c = Except.ok none := by
  induction c with
  | nil => rfl
  | cons x rest ih =>
    obtain ⟨kx, hkx, hne⟩ := h x (List.mem_cons_self x rest)
    rw [findMatch, hkx]
    show (if kx = key then Except.ok (some x) else findMatch key rest) = Except.ok none
    rw [if_neg hne]
    exact ih fun s hs => h s (List.mem_cons_of_mem x hs)

theorem loadFixture_anon_eq {fixture : Fixture} {args : List JsVal}
    {snapshots : List SnapshotRec} {oracle : Oracle}
    (hname : fixture.name = "") :
    loadFixture fixture args snapshots oracle =
      ⟨Except.error JsError.fixtureAnonymousFunctionError, snapshots, false⟩ := by
  rw [loadFixture, if_pos hname]

theorem loadFixture_keyError_eq {fixture : Fixture} {args : List JsVal}
    {snapshots : List SnapshotRec} {oracle : Oracle} {e : JsError}
    (hname : fixture.name ≠ "")
    (hkey : stringifyKey fixture.name args = Except.error e) :
    loadFixture fixture args snapshots oracle =
      ⟨Except.error e, snapshots, false⟩ := by
  simp only [loadFixture, if_neg hname, hkey]

theorem loadFixture_findError_eq {fixture : Fixture} {args : List JsVal}
    {snapshots : List SnapshotRec} {oracle : Oracle} {k : String} {e : JsError}
    (hname : fixture.name ≠ "")
    (hkey : stringifyKey fixture.name args = Except.ok k)
    (hfind : findMatch k snapshots = Except.error e) :
    loadFixture fixture args snapshots oracle =
      ⟨Except.error e, snapshots, false⟩ := by
  simp only [loadFixture, if_neg hname, hkey, hfind]

theorem loadFixture_miss_eq {fixture : Fixture} {args : List JsVal}
    {snapshots : List SnapshotRec} {oracle : Oracle} {k : String} {d : JsVal}
    (hname : fixture.name ≠ "")
    (hkey : stringifyKey fixture.name args = Except.ok k)
    (hfind : findMatch k snapshots = Except.ok none)
    (hrun : fixture.run args = Except.ok d) :
    loadFixture fixture args snapshots oracle =
      ⟨Except.ok d, snapshots ++ [⟨⟨oracle.freshId⟩, fixture, args, d⟩], true⟩ := by
  simp only [loadFixture, if_neg hname, hkey, hfind, hrun]

theorem loadFixture_missErr_eq {fixture : Fixture} {args : List JsVal}
    {snapshots : List SnapshotRec} {oracle : Oracle} {k : String} {e : JsError}
    (hname : fixture.name ≠ "")
    (hkey : stringifyKey fixture.name args = Except.ok k)
    (hfind : findMatch k snapshots = Except.ok none)
    (hrun : fixture.run args = Except.error e) :
    loadFixture fixture args snapshots oracle =
      ⟨Except.error e, snapshots, true⟩ := by
  simp only [loadFixture, if_neg hname, hkey, hfind, hrun]

theorem loadFixture_hit_ok_eq {fixture : Fixture} {args : List JsVal}
    {snapshots : List SnapshotRec} {oracle : Oracle} {k : String} {snap : SnapshotRec}
    (hname : fixture.name ≠ "")
    (hkey : stringifyKey fixture.name args = Except.ok k)
    (hfind : findMatch k snapshots = Except.ok (some snap))
    (hres : oracle.restoreResult = RestoreOutcome.ok) :
    loadFixture fixture args snapshots oracle =
      ⟨Except.ok snap.data,
       snapshots.filter (fun s => s.restorer.snapshotId ≤ snap.restorer.snapshotId),
       false⟩ := by
  simp only [loadFixture, if_neg hname, hkey, hfind, hres]

theorem loadFixture_hit_invalid_eq {fixture : Fixture} {args : List JsVal}
    {snapshots : List SnapshotRec} {oracle : Oracle} {k : String} {snap : SnapshotRec}
    (hname : fixture.name ≠ "")
    (hkey : stringifyKey fixture.name args = Except.ok k)
    (hfind : findMatch k snapshots = Except.ok (some snap))
    (hres : oracle.restoreResult = RestoreOutcome.err JsError.invalidSnapshotError) :
    loadFixture fixture args snapshots oracle =
      ⟨Except.error (JsError.fixtureSnapshotError JsError.invalidSnapshotError),
       snapshots, false⟩ := by
  simp only [loadFixture, if_neg hname, hkey, hfind, hres]

theorem loadFixture_hit_otherErr_eq {fixture : Fixture} {args : List JsVal}
    {snapshots : List SnapshotRec} {oracle : Oracle} {k : String} {snap : SnapshotRec}
    {e : JsError}
    (hname : fixture.name ≠ "")
    (hkey : stringifyKey fixture.name args = Except.ok k)
    (hfind : findMatch k snapshots = Except.ok (some snap))
    (hres : oracle.restoreResult = RestoreOutcome.err e)
    (hne : e ≠ JsError.invalidSnapshotError) :
    loadFixture fixture args snapshots oracle =
      ⟨Except.error e, snapshots, false⟩ := by
  cases e with
  | invalidSnapshotError => exact absurd rfl hne
  | fixtureAnonymousFunctionError => simp only [loadFixture, if_neg hname, hkey, hfind, hres]
  | fixtureSnapshotError c => simp only [loadFixture, if_neg hname, hkey, hfind, hres]
  | typeError m => simp only [loadFixture, if_neg hname, hkey, hfind, hres]
  | other m => simp only [loadFixture, if_neg hname, hkey, hfind, hres]

theorem loadFixture_exec_of_none {fixture : Fixture} {args : List JsVal}
    {snapshots : List SnapshotRec} {oracle : Oracle} {k : String}
    (hname : fixture.name ≠ "")
    (hkey : stringifyKey fixture.name args = Except.ok k)
    (hfind : findMatch k snapshots = Except.ok none) :
    (loadFixture fixture args snapshots oracle).executed = true := by
  cases hrun : fixture.run args with
  | error e => rw [loadFixture_missErr_eq hname hkey hfind hrun]
  | ok d => rw [loadFixture_miss_eq hname hkey hfind hrun]

mutual

theorem stringifyVal_total (v : JsVal) :
    (∃ s, stringifyVal v = Except.ok s) ∨ stringifyVal v = Except.error circErr := by
  cases v with
  | null => exact Or.inl ⟨_, rfl⟩
  | undefined => exact Or.inl ⟨_, rfl⟩
  | bool b => cases b <;> exact Or.inl ⟨_, rfl⟩
  | num n => exact Or.inl ⟨_, rfl⟩
  | str s => exact Or.inl ⟨_, rfl⟩
  | func f => exact Or.inl ⟨_, rfl⟩
  | circular => exact Or.inr rfl
  | arr xs =>
    rcases stringifyElems_total xs with ⟨ps, hp⟩ | hp
    · exact Or.inl ⟨_, by rw [stringifyVal, hp]⟩
    · exact Or.inr (by rw [stringifyVal, hp])

theorem stringifyElems_total (xs : List JsVal) :
    (∃ ps, stringifyElems xs = Except.ok ps) ∨ stringifyElems xs = Except.error circErr := by
  cases xs with
  | nil => exact Or.inl ⟨_, rfl⟩
  | cons x rest =>
    rcases stringifyVal_total x with ⟨sx, hx⟩ | hx
    · rcases stringifyElems_total rest with ⟨ps, hp⟩ | hp
      · exact Or.inl ⟨_, by rw [stringifyElems, hx, hp]⟩
      · exact Or.inr (by rw [stringifyElems, hx, hp])
    · exact Or.inr (by rw [stringifyElems, hx])

end

mutual

theorem stringifyVal_circ (v : JsVal) (h : hasCircular v = true) :
    stringifyVal v = Except.error circErr := by
  cases v with
  | null => simp [hasCircular] at h
  | undefined => simp [hasCircular] at h
  | bool b => simp [hasCircular] at h
  | num n => simp [hasCircular] at h
  | str s => simp [hasCircular] at h
  | func f => simp [hasCircular] at h
  | circular => rfl
  | arr xs =>
    rw [hasCircular] at h
    rw [stringifyVal, stringifyElems_circ xs h]

theorem stringifyElems_circ (xs : List JsVal) (h : anyCircular xs = true) :
    stringifyElems xs = Except.error circErr := by
  cases xs with
  | nil => simp [anyCircular] at h
  | cons x rest =>
    rw [anyCircular] at h
    rcases Bool.or_eq_true_iff.mp h with hx | hrest
    · rw [stringifyElems, stringifyVal_circ x hx]
    · rcases stringifyVal_total x with ⟨sx, hsx⟩ | hsx
      · rw [stringifyElems, hsx, stringifyElems_circ rest hrest]
      · rw [stringifyElems, hsx]

end

theorem findMatch_append_last {key : String} {c : List SnapshotRec} {r : SnapshotRec}
    (h : ∀ s ∈ c, ∃ ks, recKey s = Except.ok ks ∧ ks ≠ key)
    (hr : recKey r = Except.ok key) :
    findMatch key (c ++ [r]) = Except.ok (some r) := by
  induction c with
  | nil =>
    rw [List.nil_append, findMatch, hr]
    show (if key = key then Except.ok (some r) else findMatch key [])
        = Except.ok (some r)
    rw [if_pos rfl]
  | cons x rest ih =>
    obtain ⟨kx, hkx, hne⟩ := h x (List.mem_cons_self x rest)
    rw [List.cons_append, findMatch, hkx]
    show (if kx = key then Except.ok (some x) else findMatch key (rest ++ [r]))
        = Except.ok (some r)
    rw [if_neg hne]
    exact ih fun s hs => h s (List.mem_cons_of_mem x hs)

/-! ## Claims -/

/-- Claim C3: for every call to `loadFixture` with a fixture whose name
resolves to the empty string, the call fails with the anonymous-function
error (`FixtureAnonymousFunctionError`) immediately, and the fixture is
never executed (the cache is also untouched). -/
theorem C3_anonymous_fails (fixture : Fixture) (args : List JsVal)
    (snapshots : List SnapshotRec) (oracle : Oracle)
    (hname : fixture.name = "") :
    (loadFixture fixture args snapshots oracle).outcome
        = Except.error JsError.fixtureAnonymousFunctionError
    ∧ (loadFixture fixture args snapshots oracle).executed = false
    ∧ (loadFixture fixture args snapshots oracle).cache = snapshots := by
  rw [loadFixture_anon_eq hname]
  exact ⟨rfl, rfl, rfl⟩

theorem C3_anonymous_fails_witness :
    (loadFixture ⟨"", fun _ => Except.ok JsVal.null⟩ [] [] ⟨RestoreOutcome.ok, 1⟩).outcome
        = Except.error JsError.fixtureAnonymousFunctionError
    ∧ (loadFixture ⟨"", fun _ => Except.ok JsVal.null⟩ [] [] ⟨RestoreOutcome.ok, 1⟩).executed
        = false
    ∧ (loadFixture ⟨"", fun _ => Except.ok JsVal.null⟩ [] [] ⟨RestoreOutcome.ok, 1⟩).cache
        = [] :=
  C3_anonymous_fails _ _ _ _ rfl

/-- Claim C5: on the miss path (no cache record matches the serialized
key), `loadFixture` executes `fixture(...args)`, takes a fresh snapshot,
appends the record `{restorer, fixture, args, data}` at the end of the
cache, and returns the fixture's result. -/
theorem C5_miss_executes_and_appends (fixture : Fixture) (args : List JsVal)
    (snapshots : List SnapshotRec) (oracle : Oracle) (k : String) (d : JsVal)
    (hname : fixture.name ≠ "")
    (hkey : stringifyKey fixture.name args = Except.ok k)
    (hfind : findMatch k snapshots = Except.ok none)
    (hrun : fixture.run args = Except.ok d) :
    loadFixture fixture args snapshots oracle =
      ⟨Except.ok d, snapshots ++ [⟨⟨oracle.freshId⟩, fixture, args, d⟩], true⟩ :=
  loadFixture_miss_eq hname hkey hfind hrun

theorem C5_miss_executes_and_appends_witness :
    loadFixture ⟨"deploy", fun _ => Except.ok (JsVal.num 7)⟩ [JsVal.num 100] []
        ⟨RestoreOutcome.ok, 1⟩ =
      ⟨Except.ok (JsVal.num 7),
       [] ++ [⟨⟨1⟩, ⟨"deploy", fun _ => Except.ok (JsVal.num 7)⟩, [JsVal.num 100],
              JsVal.num 7⟩],
       true⟩ :=
  C5_miss_executes_and_appends _ _ _ _ "[\"deploy\",[100]]" _ (by decide) rfl rfl rfl

/-- Claim C10: if the restore operation in the hit path fails with any
error, the cache is left exactly as it was before the call — nothing is
pruned, nothing is added, and the entry whose restore failed is still
present. -/
theorem C10_restore_error_cache_unchanged (fixture : Fixture) (args : List JsVal)
    (snapshots : List SnapshotRec) (oracle : Oracle) (k : String)
    (snap : SnapshotRec) (e : JsError)
    (hname : fixture.name ≠ "")
    (hkey : stringifyKey fixture.name args = Except.ok k)
    (hfind : findMatch k snapshots = Except.ok (some snap))
    (hres : oracle.restoreResult = RestoreOutcome.err e) :
    (loadFixture fixture args snapshots oracle).cache = snapshots
    ∧ snap ∈ (loadFixture fixture args snapshots oracle).cache := by
  by_cases hinv : e = JsError.invalidSnapshotError
  · subst hinv
    rw [loadFixture_hit_invalid_eq hname hkey hfind hres]
    exact ⟨rfl, findMatch_mem hfind⟩
  · rw [loadFixture_hit_otherErr_eq hname hkey hfind hres hinv]
    exact ⟨rfl, findMatch_mem hfind⟩

theorem C10_restore_error_cache_unchanged_witness :
    (loadFixture fixA [] [recA, recB]
        ⟨RestoreOutcome.err (JsError.other "node crashed"), 9⟩).cache = [recA, recB]
    ∧ recA ∈ (loadFixture fixA [] [recA, recB]
        ⟨RestoreOutcome.err (JsError.other "node crashed"), 9⟩).cache :=
  C10_restore_error_cache_unchanged _ _ _ _ "[\"a\",[]]" recA _ (by decide) rfl rfl rfl

/-- Claim C4: in the hit path, a restore failure caused by an invalid
snapshot handle (`InvalidSnapshotError`) is surfaced as
`FixtureSnapshotError` wrapping that cause; any other restore error
propagates to the caller unchanged; and no retry is performed — in
particular the fixture is not re-executed as a fallback. -/
theorem C4_restore_error_mapping (fixture : Fixture) (args : List JsVal)
    (snapshots : List SnapshotRec) (oracle : Oracle) (k : String)
    (snap : SnapshotRec) (e : JsError)
    (hname : fixture.name ≠ "")
    (hkey : stringifyKey fixture.name args = Except.ok k)
    (hfind : findMatch k snapshots = Except.ok (some snap))
    (hres : oracle.restoreResult = RestoreOutcome.err e) :
    (e = JsError.invalidSnapshotError →
      (loadFixture fixture args snapshots oracle).outcome
        = Except.error (JsError.fixtureSnapshotError JsError.invalidSnapshotError))
    ∧ (e ≠ JsError.invalidSnapshotError →
      (loadFixture fixture args snapshots oracle).outcome = Except.error e)
    ∧ (loadFixture fixture args snapshots oracle).executed = false := by
  refine ⟨?_, ?_, ?_⟩
  · intro hinv
    subst hinv
    rw [loadFixture_hit_invalid_eq hname hkey hfind hres]
  · intro hne
    rw [loadFixture_hit_otherErr_eq hname hkey hfind hres hne]
  · by_cases hinv : e = JsError.invalidSnapshotError
    · subst hinv
      rw [loadFixture_hit_invalid_eq hname hkey hfind hres]
    · rw [loadFixture_hit_otherErr_eq hname hkey hfind hres hinv]

theorem C4_restore_error_mapping_witness :
    (loadFixture fixA [] [recA]
        ⟨RestoreOutcome.err JsError.invalidSnapshotError, 9⟩).outcome
      = Except.error (JsError.fixtureSnapshotError JsError.invalidSnapshotError)
    ∧ (loadFixture fixA [] [recA]
        ⟨RestoreOutcome.err JsError.invalidSnapshotError, 9⟩).executed = false :=
  have h := C4_restore_error_mapping fixA [] [recA]
    ⟨RestoreOutcome.err JsError.invalidSnapshotError, 9⟩ "[\"a\",[]]" recA
    JsError.invalidSnapshotError (by decide) rfl rfl rfl
  ⟨h.1 rfl, h.2.2⟩

/-- Claim C7 counterexample: "any loadFixture call performed after
clearSnapshots always re-executes its fixture" fails for a call that does
not pass loadFixture's own precondition: with an anonymous fixture,
loadFixture on the freshly cleared cache errors out and never executes
the fixture. -/
theorem C7_counterexample :
    (loadFixture ⟨"", fun _ => Except.ok (JsVal.num 1)⟩ [] clearSnapshots
        ⟨RestoreOutcome.ok, 1⟩).executed = false :=
  rfl

/-- Claim C7 (amended: restricted to calls that pass loadFixture's own
entry checks, i.e. a named fixture and a serializable argument list):
`clearSnapshots` resets the cache to empty, and a `loadFixture` call
performed on the cleared cache always executes its fixture — the empty
cache can never produce a hit, regardless of what was cached before. -/
theorem C7_clear_then_reexecute (fixture : Fixture) (args : List JsVal)
    (oracle : Oracle) (k : String)
    (hname : fixture.name ≠ "")
    (hkey : stringifyKey fixture.name args = Except.ok k) :
    clearSnapshots = []
    ∧ (loadFixture fixture args clearSnapshots oracle).executed = true :=
  ⟨rfl, loadFixture_exec_of_none hname hkey rfl⟩

theorem C7_clear_then_reexecute_witness :
    clearSnapshots = []
    ∧ (loadFixture ⟨"setup", fun _ => Except.ok JsVal.null⟩ [JsVal.bool true]
        clearSnapshots ⟨RestoreOutcome.ok, 4⟩).executed = true :=
  C7_clear_then_reexecute _ _ _ "[\"setup\",[true]]" (by decide) rfl

/-- Claim C8: calling `loadFixture` with the same fixture but an argument
list whose canonical serialization differs from every cached entry's key
re-executes the fixture and appends an independent cache entry, leaving
every existing entry (in particular the one cached for the other argument
list) intact. -/
theorem C8_different_args_independent (fixture : Fixture) (args : List JsVal)
    (snapshots : List SnapshotRec) (oracle : Oracle) (k : String) (d : JsVal)
    (hname : fixture.name ≠ "")
    (hkey : stringifyKey fixture.name args = Except.ok k)
    (hdiff : ∀ s ∈ snapshots, ∃ ks, recKey s = Except.ok ks ∧ ks ≠ k)
    (hrun : fixture.run args = Except.ok d) :
    (loadFixture fixture args snapshots oracle).executed = true
    ∧ (loadFixture fixture args snapshots oracle).cache
        = snapshots ++ [⟨⟨oracle.freshId⟩, fixture, args, d⟩]
    ∧ ∀ s ∈ snapshots, s ∈ (loadFixture fixture args snapshots oracle).cache := by
  have hfind := findMatch_none_of hdiff
  rw [loadFixture_miss_eq hname hkey hfind hrun]
  exact ⟨rfl, rfl, fun s hs => List.mem_append_left _ hs⟩

theorem C8_different_args_independent_witness :
    (loadFixture deployFix [JsVal.num 200] [deployHundredRec]
        ⟨RestoreOutcome.ok, 4⟩).executed = true
    ∧ (loadFixture deployFix [JsVal.num 200] [deployHundredRec]
        ⟨RestoreOutcome.ok, 4⟩).cache
      = [deployHundredRec] ++ [⟨⟨4⟩, deployFix, [JsVal.num 200], JsVal.num 1⟩]
    ∧ ∀ s ∈ [deployHundredRec],
        s ∈ (loadFixture deployFix [JsVal.num 200] [deployHundredRec]
          ⟨RestoreOutcome.ok, 4⟩).cache :=
  C8_different_args_independent _ _ _ _ "[\"deploy\",[200]]" _ (by decide) rfl
    (by
      intro s hs
      rw [List.mem_singleton] at hs
      subst hs
      exact ⟨"[\"deploy\",[100]]", rfl, by decide⟩)
    rfl

/-- Claim C1 counterexample: the claim quantifies over *every* argument
list, but for an argument list containing a circular structure the very
first call does not execute the fixture and does not return its result —
`JSON.stringify` throws while building the cache key. -/
theorem C1_counterexample :
    (loadFixture ⟨"f", fun _ => Except.ok JsVal.null⟩ [JsVal.circular] []
        ⟨RestoreOutcome.ok, 1⟩).executed = false
    ∧ (loadFixture ⟨"f", fun _ => Except.ok JsVal.null⟩ [JsVal.circular] []
        ⟨RestoreOutcome.ok, 1⟩).outcome = Except.error circErr :=
  ⟨rfl, rfl⟩

/-- Claim C1 (amended: the argument list must serialize — no circular
structure — and the second call's restore succeeds): for a fixture with a
non-empty name, the first call for its key executes the fixture and
returns its result, and a second call with the same fixture name and a
structurally-equal argument list returns the same cached result without
re-invoking the fixture (it restores the snapshot instead). -/
theorem C1_memoization (fixture : Fixture) (args : List JsVal)
    (snapshots : List SnapshotRec) (o1 o2 : Oracle) (k : String) (d : JsVal)
    (hname : fixture.name ≠ "")
    (hkey : stringifyKey fixture.name args = Except.ok k)
    (hfind : findMatch k snapshots = Except.ok none)
    (hrun : fixture.run args = Except.ok d)
    (hres : o2.restoreResult = RestoreOutcome.ok) :
    (loadFixture fixture args snapshots o1).executed = true
    ∧ (loadFixture fixture args snapshots o1).outcome = Except.ok d
    ∧ (loadFixture fixture args
        (loadFixture fixture args snapshots o1).cache o2).executed = false
    ∧ (loadFixture fixture args
        (loadFixture fixture args snapshots o1).cache o2).outcome = Except.ok d := by
  rw [loadFixture_miss_eq hname hkey hfind hrun]
  refine ⟨rfl, rfl, ?_⟩
  have hfind2 : findMatch k
      (snapshots ++ [⟨⟨o1.freshId⟩, fixture, args, d⟩])
        = Except.ok (some ⟨⟨o1.freshId⟩, fixture, args, d⟩) :=
    findMatch_append_last (findMatch_none hfind) hkey
  rw [loadFixture_hit_ok_eq hname hkey hfind2 hres]
  exact ⟨rfl, rfl⟩

theorem C1_memoization_witness :
    (loadFixture ⟨"w", fun _ => Except.ok (JsVal.num 3)⟩ [] [] ⟨RestoreOutcome.ok, 1⟩).executed
      = true
    ∧ (loadFixture ⟨"w", fun _ => Except.ok (JsVal.num 3)⟩ [] [] ⟨RestoreOutcome.ok, 1⟩).outcome
      = Except.ok (JsVal.num 3)
    ∧ (loadFixture ⟨"w", fun _ => Except.ok (JsVal.num 3)⟩ []
        (loadFixture ⟨"w", fun _ => Except.ok (JsVal.num 3)⟩ [] []
          ⟨RestoreOutcome.ok, 1⟩).cache ⟨RestoreOutcome.ok, 2⟩).executed = false
    ∧ (loadFixture ⟨"w", fun _ => Except.ok (JsVal.num 3)⟩ []
        (loadFixture ⟨"w", fun _ => Except.ok (JsVal.num 3)⟩ [] []
          ⟨RestoreOutcome.ok, 1⟩).cache ⟨RestoreOutcome.ok, 2⟩).outcome
      = Except.ok (JsVal.num 3) :=
  C1_memoization _ _ _ _ _ "[\"w\",[]]" _ (by decide) rfl rfl rfl rfl

/-- Claim C6: the cache holds at most one record per distinct
(fixture name, serialized args) key: the invariant holds for the empty
cache, is preserved by every `loadFixture` call (hit path, miss path and
all error paths), and holds after `clearSnapshots`. -/
theorem C6_keys_unique_invariant (fixture : Fixture) (args : List JsVal)
    (snapshots : List SnapshotRec) (oracle : Oracle)
    (h : KeysUnique snapshots) :
    KeysUnique ([] : List SnapshotRec)
    ∧ KeysUnique (loadFixture fixture args snapshots oracle).cache
    ∧ KeysUnique clearSnapshots := by
  refine ⟨List.Pairwise.nil, ?_, List.Pairwise.nil⟩
  by_cases hname : fixture.name = ""
  · rw [loadFixture_anon_eq hname]
    exact h
  · cases hkey : stringifyKey fixture.name args with
    | error e =>
      rw [loadFixture_keyError_eq hname hkey]
      exact h
    | ok k =>
      cases hfind : findMatch k snapshots with
      | error e =>
        rw [loadFixture_findError_eq hname hkey hfind]
        exact h
      | ok os =>
        cases os with
        | some snap =>
          cases hres : oracle.restoreResult with
          | ok =>
            rw [loadFixture_hit_ok_eq hname hkey hfind hres]
            exact List.Pairwise.sublist (List.filter_sublist _) h
          | err e =>
            by_cases hinv : e = JsError.invalidSnapshotError
            · subst hinv
              rw [loadFixture_hit_invalid_eq hname hkey hfind hres]
              exact h
            · rw [loadFixture_hit_otherErr_eq hname hkey hfind hres hinv]
              exact h
        | none =>
          cases hrun : fixture.run args with
          | error e =>
            rw [loadFixture_missErr_eq hname hkey hfind hrun]
            exact h
          | ok d =>
            rw [loadFixture_miss_eq hname hkey hfind hrun]
            rw [KeysUnique, List.pairwise_append]
            refine ⟨h, List.pairwise_singleton _ _, ?_⟩
            intro a ha b hb
            rw [List.mem_singleton] at hb
            subst hb
            obtain ⟨ks, hks, hne⟩ := findMatch_none hfind a ha
            have hb : recKey ⟨⟨oracle.freshId⟩, fixture, args, d⟩ = Except.ok k := hkey
            rw [hks, hb]
            intro hcontra
            exact hne (by injection hcontra)

theorem C6_keys_unique_invariant_witness :
    KeysUnique ([] : List SnapshotRec)
    ∧ KeysUnique (loadFixture fixA [] [recA, recB] ⟨RestoreOutcome.ok, 5⟩).cache
    ∧ KeysUnique clearSnapshots :=
  C6_keys_unique_invariant fixA [] [recA, recB] ⟨RestoreOutcome.ok, 5⟩
    (by
      rw [KeysUnique]
      refine List.Pairwise.cons ?_ (List.pairwise_singleton _ _)
      intro b hb
      rw [List.mem_singleton] at hb
      subst hb
      have ha : recKey recA = Except.ok "[\"a\",[]]" := rfl
      have hb2 : recKey recB = Except.ok "[\"b\",[]]" := rfl
      rw [ha, hb2]
      intro hcontra
      have heq : ("[\"a\",[]]" : String) = "[\"b\",[]]" := by injection hcontra
      exact absurd heq (by decide))

theorem keysUnique_symm :
    Symmetric (fun a b : SnapshotRec => recKey a ≠ recKey b) :=
  fun _ _ h heq => h heq.symm

/-- Claim C2: after a successful restore in the hit path, every cache
record whose restorer id is strictly greater than the restored record's
id is removed, every record whose restorer id is less than or equal to it
is retained (the restored record itself included), and a subsequent
`loadFixture` call for a removed entry re-executes its fixture (stated
for well-formed caches: stored records have non-empty fixture names,
serializable keys, and pairwise-distinct keys). -/
theorem C2_prune_after_restore (fixture : Fixture) (args : List JsVal)
    (snapshots : List SnapshotRec) (oracle : Oracle) (k : String) (snap : SnapshotRec)
    (hname : fixture.name ≠ "")
    (hkey : stringifyKey fixture.name args = Except.ok k)
    (hfind : findMatch k snapshots = Except.ok (some snap))
    (hres : oracle.restoreResult = RestoreOutcome.ok) :
    (∀ s ∈ snapshots, snap.restorer.snapshotId < s.restorer.snapshotId →
      s ∉ (loadFixture fixture args snapshots oracle).cache)
    ∧ (∀ s ∈ snapshots, s.restorer.snapshotId ≤ snap.restorer.snapshotId →
      s ∈ (loadFixture fixture args snapshots oracle).cache)
    ∧ snap ∈ (loadFixture fixture args snapshots oracle).cache
    ∧ (∀ s ∈ snapshots, snap.restorer.snapshotId < s.restorer.snapshotId →
      s.fixture.name ≠ "" →
      KeysUnique snapshots →
      (∀ t ∈ snapshots, ∃ kt, recKey t = Except.ok kt) →
      ∀ o2 : Oracle,
        (loadFixture s.fixture s.args
          (loadFixture fixture args snapshots oracle).cache o2).executed = true) := by
  rw [loadFixture_hit_ok_eq hname hkey hfind hres]
  refine ⟨?_, ?_, ?_, ?_⟩
  · intro s hs hlt hmem
    have h2 := (List.mem_filter.mp hmem).2
    simp at h2
    omega
  · intro s hs hle
    exact List.mem_filter.mpr ⟨hs, by simpa using hle⟩
  · exact List.mem_filter.mpr ⟨findMatch_mem hfind, by simp⟩
  · intro s hs hlt hsname huniq hok o2
    obtain ⟨ks, hks⟩ := hok s hs
    have hskey : stringifyKey s.fixture.name s.args = Except.ok ks := hks
    have hsnotin : s ∉ snapshots.filter
        (fun t => t.restorer.snapshotId ≤ snap.restorer.snapshotId) := by
      intro hmem
      have h2 := (List.mem_filter.mp hmem).2
      simp at h2
      omega
    have hnone : findMatch ks (snapshots.filter
        (fun t => t.restorer.snapshotId ≤ snap.restorer.snapshotId))
          = Except.ok none := by
      apply findMatch_none_of
      intro t ht
      obtain ⟨kt, hkt⟩ := hok t (List.mem_of_mem_filter ht)
      refine ⟨kt, hkt, ?_⟩
      intro hkteq
      subst hkteq
      have htne : t ≠ s := fun hts => hsnotin (hts ▸ ht)
      have hdiff := List.Pairwise.forall keysUnique_symm huniq
        (List.mem_of_mem_filter ht) hs htne
      exact hdiff (hkt.trans hks.symm)
    exact loadFixture_exec_of_none hsname hskey hnone

theorem recA_recB_keys_distinct : KeysUnique [recA, recB] := by
  rw [KeysUnique]
  refine List.Pairwise.cons ?_ (List.pairwise_singleton _ _)
  intro b hb
  rw [List.mem_singleton] at hb
  subst hb
  have ha : recKey recA = Except.ok "[\"a\",[]]" := rfl
  have hb2 : recKey recB = Except.ok "[\"b\",[]]" := rfl
  rw [ha, hb2]
  intro hcontra
  have heq : ("[\"a\",[]]" : String) = "[\"b\",[]]" := by injection hcontra
  exact absurd heq (by decide)

theorem recA_recB_keys_ok : ∀ t ∈ [recA, recB], ∃ kt, recKey t = Except.ok kt := by
  intro t ht
  rw [List.mem_cons] at ht
  rcases ht with h1 | h2
  · subst h1
    exact ⟨"[\"a\",[]]", rfl⟩
  · rw [List.mem_singleton] at h2
    subst h2
    exact ⟨"[\"b\",[]]", rfl⟩

theorem C2_prune_after_restore_witness :
    recB ∉ (loadFixture fixA [] [recA, recB] ⟨RestoreOutcome.ok, 5⟩).cache
    ∧ recA ∈ (loadFixture fixA [] [recA, recB] ⟨RestoreOutcome.ok, 5⟩).cache
    ∧ (loadFixture recB.fixture recB.args
        (loadFixture fixA [] [recA, recB] ⟨RestoreOutcome.ok, 5⟩).cache
        ⟨RestoreOutcome.ok, 6⟩).executed = true :=
  have h := C2_prune_after_restore fixA [] [recA, recB] ⟨RestoreOutcome.ok, 5⟩
    "[\"a\",[]]" recA (by decide) rfl rfl rfl
  have hmemB : recB ∈ [recA, recB] :=
    List.mem_cons_of_mem _ (List.mem_cons_self _ _)
  have hlt : recA.restorer.snapshotId < recB.restorer.snapshotId := by decide
  ⟨h.1 recB hmemB hlt, h.2.2.1,
   h.2.2.2 recB hmemB hlt (by decide) recA_recB_keys_distinct recA_recB_keys_ok
     ⟨RestoreOutcome.ok, 6⟩⟩

/-- Claim C9 counterexample: a function value has no faithful canonical
serialization, yet `loadFixture` does not fail fast on it:
`JSON.stringify` renders it as `null`, so the call with argument list
`[func 7]` silently matches the record cached for the different argument
list `[func 99]`, returns that record's data and never executes the
fixture. -/
theorem C9_counterexample :
    (loadFixture deployFix [JsVal.func 7] [funcArgRec]
        ⟨RestoreOutcome.ok, 6⟩).outcome = Except.ok (JsVal.num 42)
    ∧ (loadFixture deployFix [JsVal.func 7] [funcArgRec]
        ⟨RestoreOutcome.ok, 6⟩).executed = false :=
  ⟨rfl, rfl⟩

/-- Claim C9 (amended): only circular structures make `loadFixture` fail
fast — for every argument list containing a circular structure anywhere,
the call fails with the serialization `TypeError` before touching the
cache or executing the fixture; function-valued arguments, in contrast,
are silently serialized as `null`, so they can match a record built from
different arguments (see the counterexample). -/
theorem C9_circular_fails_fast (fixture : Fixture) (args : List JsVal)
    (snapshots : List SnapshotRec) (oracle : Oracle)
    (hname : fixture.name ≠ "")
    (hcirc : anyCircular args = true) :
    loadFixture fixture args snapshots oracle =
      ⟨Except.error circErr, snapshots, false⟩ := by
  have h1 : stringifyElems args = Except.error circErr :=
    stringifyElems_circ args hcirc
  have h2 : stringifyVal (JsVal.arr args) = Except.error circErr := by
    rw [stringifyVal, h1]
  have h3 : stringifyElems [JsVal.arr args] = Except.error circErr := by
    rw [stringifyElems, h2]
  have hs : stringifyVal (JsVal.str fixture.name)
      = Except.ok ("\"" ++ jsonEscape fixture.name ++ "\"") := rfl
  have h4 : stringifyElems [JsVal.str fixture.name, JsVal.arr args]
      = Except.error circErr := by
    rw [stringifyElems, hs]
    show (match stringifyElems [JsVal.arr args] with
          | Except.error e => Except.error e
          | Except.ok rest =>
              Except.ok (("\"" ++ jsonEscape fixture.name ++ "\"") :: rest))
        = Except.error circErr
    rw [h3]
  have hkey : stringifyKey fixture.name args = Except.error circErr := by
    rw [stringifyKey, stringifyVal, h4]
  exact loadFixture_keyError_eq hname hkey

theorem C9_circular_fails_fast_witness :
    loadFixture ⟨"g", fun _ => Except.ok JsVal.null⟩
        [JsVal.num 1, JsVal.arr [JsVal.circular]] [recA] ⟨RestoreOutcome.ok, 3⟩ =
      ⟨Except.error circErr, [recA], false⟩ :=
  C9_circular_fails_fast _ _ _ _ (by decide) rfl
